import Mathlib

/-!
# Verification of the signal-combination and scoring pipeline

Shallow embedding, over `ℚ`, of the scoring core of the `ai-trading-agent`
repository: the catalyst scorer (`src/signals/catalyst.py`), the sentiment
scorer (`src/signals/sentiment.py`), the ETF premium/discount signal
(`src/signals/etf_premium_discount.py`), the small-cap momentum base scorer
(`strategies/momentum_smallcap_strategy.py`), and the Signal Combiner with
its filters and risk sizing (`src/main.py`).

Modelling conventions:
* Python floats are modelled as `ℚ`.  A pandas `NaN` scalar is modelled as
  `none : Option ℚ`; pandas `NaN` propagation through arithmetic is `Option.map`
  / `Option.bind`, and the Python comparisons `x >= NaN` / `NaN > c`, which
  evaluate to `False`, are modelled by matching on the option.
* A pandas rolling aggregate with `min_periods = m` over the *last* position of
  a series is defined iff at least `m` observations fall in the last window;
  otherwise it is `NaN` (`none`).
* External-library values that the core only pipes through are parameters:
  the regex engine of `re` is a parameter `search : String → String → Bool`
  applied to the verbatim pattern strings of the source; the rolling sample
  standard deviation (irrational in general) is a parameter `sd : ℚ`
  constrained in theorems by the properties the source relies on; TA-Lib
  outputs are opaque values inside frames whose *schema* is computed from the
  source.
* Exceptions are modelled with `Except String`; a Python `try/except` that
  falls back to a default is a `match` on the `Except` value.
-/

/-- Python `max(min(x, hi), lo)` / `Series.clip(lo, hi)`. -/
def clip (lo hi x : ℚ) : ℚ := max lo (min hi x)

/-- Mean of a list of rationals (pandas `.mean()` on a non-empty column). -/
def listMean (xs : List ℚ) : ℚ := xs.sum / (xs.length : ℚ)

/-- The last `w` elements of a series: the window a pandas rolling aggregate
sees at the final index (`min w xs.length` observations). -/
def lastWindow (w : Nat) (xs : List ℚ) : List ℚ := xs.drop (xs.length - w)

/-- `xs.rolling(w, min_periods=m).mean().iloc[-1]`: `NaN` (`none`) when fewer
than `m` observations are available in the final window. -/
def rollingLastMean (w m : Nat) (xs : List ℚ) : Option ℚ :=
  let win := lastWindow w xs
  if m ≤ win.length then some (listMean win) else none

/-- `xs.rolling(w, min_periods=m).max().iloc[-1]`. -/
def rollingLastMax (w m : Nat) (xs : List ℚ) : Option ℚ :=
  let win := lastWindow w xs
  if m ≤ win.length then win.max? else none

/-- Last element of a series (`.iloc[-1]` / `.tail(1).iloc[0]`), defaulting to
`0` (only used under a non-emptiness guard, mirroring the source). -/
def lastD (xs : List ℚ) : ℚ := (xs.getLast?).getD 0

/-!
## Catalyst scorer — `src/signals/catalyst.py`

The regex engine is external; `search pat text` stands for
`re.compile(pat, re.IGNORECASE).search(text) is not None`.
-/

/-- The fixed positive-catalyst pattern list of `catalyst.py`, verbatim. -/
def POSITIVE_PATTERNS : List String :=
  ["\\bFDA\\b",
   "\\bapproval\\b",
   "\\bPDUFA\\b",
   "\\bphase\\s*(III|3)\\b",
   "\\bM&A\\b|\\bmerger\\b|\\bacquisition\\b|\\bbuyout\\b",
   "\\bearnings\\b\\s*(beat|surprise|smash)\\b",
   "\\bEPS\\b\\s*(beat|surprise)\\b",
   "\\brevenue\\b\\s*(beat|record)\\b",
   "\\bguidance\\b\\s*(raise|raised|hike)\\b",
   "\\bpartnership\\b|\\bcontract\\b|\\bdeal\\b"]

/-- A text hits the catalyst scan: it is non-empty (the loop `continue`s on a
falsy text before matching) and some pattern matches it. -/
def catalystHit (search : String → String → Bool) (t : String) : Bool :=
  t ≠ "" && POSITIVE_PATTERNS.any (fun p => search p t)

/-- `catalyst_score` of `catalyst.py`: fraction of texts hitting at least one
pattern, clamped to `[0, 1]`; `0` on an empty list. -/
def catalyst_score (search : String → String → Bool) (texts : List String) : ℚ :=
  if texts.isEmpty then 0
  else
    let total : Nat := texts.length
    let score : Nat := (texts.filter (catalystHit search)).length
    min (max ((score : ℚ) / (total : ℚ)) 0) 1

/-!
## ETF premium/discount signal — `src/signals/etf_premium_discount.py`
-/

/-- `generate_premium_signal` of `etf_premium_discount.py`: the `if/elif`
chain on the tracking difference in percentage points. -/
def generate_premium_signal (p : ℚ) : Int :=
  if p ≤ -(1/2) then 2
  else if p ≤ -(1/5) then 1
  else if p ≥ 1/2 then -2
  else if p ≥ 1/5 then -1
  else 0

/-!
## Position sizing — `AITradingAgent._position_size` in `src/main.py`

`risk` is the resolved `risk_params.max_risk_pct_per_trade` /legacy `risk_pct`
and `k` the configured `atr_k`.
-/

/-- `_position_size`: `0` when `atr <= 0`, else
`(account_equity * risk) / (atr * k)`. -/
def position_size (account_equity risk k atr : ℚ) : ℚ :=
  if atr ≤ 0 then 0 else (account_equity * risk) / (atr * k)

/-!
## Text sentiment scorer — `src/signals/sentiment.py`

`score_sentiment` adds a `'sentiment'` column (the VADER compound score of
each `'text'` cell) and raises `ValueError` when the input frame has no
`'text'` column.  The VADER analyzer lives in the external `vaderSentiment`
package, so its compound score is modelled from the spec below.
-/

/-- A text-bearing frame, as an association of column names to string cells
(one list per column). -/
abbrev TextFrame := List (String × List String)

/-- Column lookup on a `TextFrame` (`df['name']` when `'name' in df.columns`). -/
def TextFrame.findCol (df : TextFrame) (name : String) : Option (List String) :=
  (df.find? (fun c => c.1 = name)).map (fun c => c.2)

/-- Whitespace tokenization of a text (empty tokens discarded), over the
character list of the string. -/
def tokens (s : String) : List String :=
  ((s.toList.splitOnP (fun ch => ch.isWhitespace)).map (fun cs => String.mk cs)).filter
    (fun t => t ≠ "")

/-- Modelled from the spec: the VADER compound polarity score (the external
`vaderSentiment` library, not part of `src/`).  Per spec §4.1 it is a pure,
deterministic, lexicon/rule-based map from free text to `[-1, +1]` with
empty/whitespace-only text scoring exactly `0`.  The lexicon valence is a
parameter; the sum of token valences is squashed into `(-1, 1)`. -/
def vaderCompound (valence : String → ℚ) (s : String) : ℚ :=
  let ts := tokens s
  if ts.isEmpty then 0
  else
    let raw := (ts.map valence).sum
    raw / (|raw| + 1)

/-- `score_sentiment` of `sentiment.py`: the produced `'sentiment'` column, or
the `ValueError` raised when the `'text'` column is absent. -/
def score_sentiment (valence : String → ℚ) (df : TextFrame) : Except String (List ℚ) :=
  match df.findCol "text" with
  | some texts => Except.ok (texts.map (vaderCompound valence))
  | none => Except.error "Input DataFrame must contain a 'text' column"

/-- The per-symbol rows of `trading_data_latest.csv` as read by
`AITradingAgent.get_sentiment_score`: each row carries a `symbol` and a `text`
cell; `hasText` records whether the `'text'` column exists at all. -/
structure CsvData where
  hasText : Bool
  rows : List (String × String)

/-- `AITradingAgent.get_sentiment_score` (`src/main.py` lines 154-164):
`none` stands for a missing file or an exception while reading it (the
`try/except` falls through); otherwise the frame is filtered to the symbol
and, when non-empty and a `'text'` column exists, the mean VADER compound is
returned; every other path yields the neutral `0.0`. -/
def get_sentiment_score (valence : String → ℚ) (csv : Option CsvData) (sym : String) : ℚ :=
  match csv with
  | none => 0
  | some d =>
    let sub := d.rows.filter (fun r => r.1 = sym)
    if ¬ sub.isEmpty ∧ d.hasText then listMean (sub.map (fun r => vaderCompound valence r.2))
    else 0

/-!
## Price frames and the small-cap momentum base scorer —
`strategies/momentum_smallcap_strategy.py`
-/

/-- One OHLCV row of the normalized price frame (`get_symbol_data` always
returns either an empty frame or rows with exactly the columns
`symbol, timestamp, open, high, low, close, volume`). -/
structure Bar where
  opn : ℚ
  high : ℚ
  low : ℚ
  close : ℚ
  volume : ℚ
deriving DecidableEq, Repr

/-- A per-symbol price frame, rows ascending by timestamp. -/
abbrev PriceFrame := List Bar

def PriceFrame.closes (df : PriceFrame) : List ℚ := df.map (fun b => b.close)

def PriceFrame.volumes (df : PriceFrame) : List ℚ := df.map (fun b => b.volume)

/-- The `v_z` scalar of `score_smallcap_momentum`:
`((v - v.rolling(20,5).mean()) / v.rolling(20,5).std().replace(0,1)).clip(-3,3)`
at the last index.  `sd` is the final rolling sample standard deviation,
passed as a parameter (irrational in general); the `.replace(0, 1)` of the
source is the `if sd = 0 then 1 else sd` divisor.  `NaN` (fewer than 5
observations) propagates as `none`. -/
def v_z_last (vs : List ℚ) (sd : ℚ) : Option ℚ :=
  match rollingLastMean 20 5 vs with
  | some m => some (clip (-3) 3 ((lastD vs - m) / (if sd = 0 then 1 else sd)))
  | none => none

/-- `score_smallcap_momentum` of `momentum_smallcap_strategy.py`.  The result
is `none` exactly when the Python function returns `NaN`.  `search` is the
regex engine for the catalyst scan and `sd` the final rolling std of the
volume series.  (The frame type always carries the required columns; the
`'close'/'volume' not in columns` guard of the source cannot fire here.
pandas turns `pct_change` against a zero close into `±inf`, which the final
clip maps to `±1`; the claims under verification never divide by a zero
close.) -/
def score_smallcap_momentum (df : PriceFrame) (sentiment : ℚ) (texts : List String)
    (search : String → String → Bool) (sd : ℚ) : Option ℚ :=
  if df.isEmpty then some 0
  else
    let s := df.closes
    let v := df.volumes
    let n := df.length
    let ret5 : ℚ := if 6 ≤ n then lastD s / ((s.get? (n - 6)).getD 1) - 1 else 0
    let hi20 : Option ℚ := rollingLastMax 20 5 s
    let breakout : ℚ :=
      match hi20 with
      | some h => if h ≤ lastD s then 1 else -(1/5)
      | none => -(1/5)
    let volScore : Option ℚ := (v_z_last v sd).map (fun z => z / 3)
    let cat : ℚ := catalyst_score search texts
    let base : Option ℚ := volScore.map (fun vs =>
      (45/100) * clip (-1) 1 (ret5 * 10) + (3/10) * breakout + (15/100) * vs
        + (1/10) * clip (-1) 1 sentiment + (15/100) * cat)
    base.map (clip (-1) 1)

/-- `trade_plan` of `momentum_smallcap_strategy.py` (the `round(x, 4)` of the
source is half-even; the claims under verification do not inspect the rounded
digits, so plain values are kept). -/
def trade_plan (entry_price stop_loss_pct take_profit_pct trail_pct : ℚ) :
    List (String × ℚ) :=
  [("stop_loss", entry_price * (1 - stop_loss_pct)),
   ("take_profit_1", entry_price * (1 + take_profit_pct)),
   ("trail_after_tp1", trail_pct)]

/-!
## Frame schemas of the leaf generators —
`src/signals/ta_triggers.py` and `src/signals/volume.py`

`generate_ta_triggers` and `detect_volume_spikes` carry every input column
through (`groupby` / `copy` / boolean row selection preserve columns) and add
their own columns by assignment (which leaves the column list unchanged when
the name already exists).  The numeric contents of the added columns come
from TA-Lib / rolling medians; only the schema is relevant to the combiner,
so the column-list transformation is embedded from the source.
-/

/-- `df['name'] = ...`: appends the column name unless already present. -/
def addCol (cols : List String) (name : String) : List String :=
  if name ∈ cols then cols else cols ++ [name]

/-- Column list of the frame returned by `generate_ta_triggers` (non-empty
input): `timestamp` is added if missing, then `rsi`, `macd`, `signal`,
`prev_rsi`, `rsi_signal`, `prev_macd`, `prev_signal`, `macd_signal` are
assigned and the three `prev_*` helper columns dropped. -/
def ta_triggers_cols (cols : List String) : List String :=
  let withTs := addCol cols "timestamp"
  let assigned := ["rsi", "macd", "signal", "prev_rsi", "rsi_signal",
                   "prev_macd", "prev_signal", "macd_signal"].foldl addCol withTs
  assigned.filter (fun c => c ∉ ["prev_rsi", "prev_macd", "prev_signal"])

/-- Column list of the frame returned by `detect_volume_spikes`: `timestamp`
added if missing, then `rolling_med` and `spike` assigned; the final
`out[out['spike']]` row selection keeps all columns. -/
def volume_spikes_cols (cols : List String) : List String :=
  addCol (addCol (addCol cols "timestamp") "rolling_med") "spike"

/-- The columns of every non-empty frame `get_symbol_data` returns
(`src/main.py`: the FAST_TEST constructor, the Alpha Vantage normalizer and
the yfinance rename/selection all produce exactly these). -/
def standardCols : List String :=
  ["symbol", "timestamp", "open", "high", "low", "close", "volume"]

/-!
## Signal Combiner — `AITradingAgent.calculate_combined_signal_score`
-/

/-- A generic numeric frame: association of column names to value lists.
Only emptiness, column membership and the mean of a column are consumed. -/
abbrev ColFrame := List (String × List ℚ)

/-- `df.empty`: no rows (all columns empty; an absent frame is `[]`). -/
def ColFrame.isEmpty (f : ColFrame) : Bool := f.all (fun c => c.2.isEmpty)

def ColFrame.columns (f : ColFrame) : List String := f.map (fun c => c.1)

/-- `df['name']` for a `ColFrame` (defaults to `[]`; only read under a
membership guard, mirroring the source). -/
def ColFrame.col (f : ColFrame) (name : String) : List ℚ :=
  ((f.find? (fun c => c.1 = name)).map (fun c => c.2)).getD []

/-- Result record of `calculate_combined_signal_score`. -/
structure CombOut where
  total_score : Option ℚ
  action : String
  technical_score : ℚ
  volume_score : ℚ
  confidence : Option ℚ
deriving DecidableEq, Repr

/-- `calculate_combined_signal_score` of `src/main.py` (lines 178-184) with
weights `{base: 0.35, technical: 0.3, volume: 0.2, sentiment: 0.15}`.
`base` is `none` when the base scorer returned `NaN`; a `NaN` total makes
both `> 0.6` and `< -0.6` false (action `HOLD`) and a `NaN` confidence. -/
def calculate_combined_signal_score (base : Option ℚ) (ta vol : ColFrame)
    (sent : ℚ) : CombOut :=
  let tech : ℚ :=
    if ¬ ta.isEmpty ∧ "signal_strength" ∈ ta.columns then listMean (ta.col "signal_strength")
    else 0
  let volS : ℚ :=
    if ¬ vol.isEmpty ∧ "volume_strength" ∈ vol.columns then listMean (vol.col "volume_strength")
    else 0
  let total : Option ℚ := base.map (fun b =>
    b * (35/100) + tech * (3/10) + volS * (1/5) + sent * (15/100))
  let action : String :=
    match total with
    | some t => if t > 3/5 then "BUY" else if t < -(3/5) then "SELL" else "HOLD"
    | none => "HOLD"
  let conf : Option ℚ := total.map (fun t => min |t| 1)
  { total_score := total, action := action, technical_score := tech,
    volume_score := volS, confidence := conf }

/-!
## Filters, ATR and the momentum small-cap pipeline — `src/main.py`
-/

/-- The resolved configuration the pipeline reads (`_load_config` defaults /
`settings.json`, with the `universe_guards` / `risk_params` override chains of
the source collapsed into single resolved values). -/
structure Config where
  price_min : ℚ
  min_10d_dollar_volume : ℚ
  min_avg_volume : Option ℚ
  sector_exclude : List String
  sectors_biotech : List String
  earnings_window_days : Int
  stop_loss_pct : ℚ
  take_profit_pct : ℚ
  trail_pct : ℚ
  risk_pct : ℚ
  atr_k : ℚ
  account_equity : ℚ

/-- `_avg_dollar_volume` (`src/main.py` lines 205-212): the 10-period rolling
mean of `close * volume` with `min_periods = max(3, 10//2) = 5` at the last
index; `0.0` on an empty frame or a `NaN` result. -/
def avg_dollar_volume (df : PriceFrame) : ℚ :=
  if df.isEmpty then 0
  else (rollingLastMean 10 5 (df.map (fun b => b.close * b.volume))).getD 0

/-- The true-range series of `_atr`: the first row's `high - prev_close` and
`low - prev_close` are `NaN`, so the row-wise `max` (which skips `NaN`)
degenerates to `high - low` there. -/
def trueRanges : PriceFrame → List ℚ
  | [] => []
  | b :: rest => (b.high - b.low) :: trAux b rest
where
  trAux : Bar → List Bar → List ℚ
  | _, [] => []
  | prev, b :: rest =>
    max (b.high - b.low) (max |b.high - prev.close| |b.low - prev.close|) :: trAux b rest

/-- `_atr` (`src/main.py` lines 187-203): 14-period rolling mean of the true
range with `min_periods = 7`; `0.0` on an empty frame or a `NaN` result. -/
def atr (df : PriceFrame) : ℚ :=
  if df.isEmpty then 0
  else (rollingLastMean 14 7 (trueRanges df)).getD 0

/-- `_apply_filters` (`src/main.py` lines 214-251).  Returns the pass flag
and `meta['filters']`.  `sector = none` models a falsy (`None`/empty) sector.
Each guard returns immediately on failure, mirroring the source's
`return False, meta` statements. -/
def apply_filters (cfg : Config) (df : PriceFrame) (sector : Option String)
    (has_recent_biotech_catalyst : Bool) : Bool × List String :=
  if df.isEmpty then (false, ["no_data"])
  else if lastD df.closes < cfg.price_min then (false, ["min_price"])
  else if avg_dollar_volume df < cfg.min_10d_dollar_volume then (false, ["min_dollar_vol"])
  else if (match cfg.min_avg_volume, rollingLastMean 10 5 df.volumes with
           | some m, some av => decide (av < m)
           | _, _ => false) then (false, ["min_avg_volume"])
  else if (match sector with
           | some s => decide (s ∈ cfg.sector_exclude)
           | none => false) then (false, ["sector_exclude"])
  else if (match sector with
           | some s => decide (s ∈ cfg.sectors_biotech) && ! has_recent_biotech_catalyst
           | none => false) then (false, ["biotech_no_catalyst"])
  else (true, [])

/-- External collaborators of the pipeline, each of which may raise (modelled
as `Except`): price history (yfinance / Alpha Vantage inside
`get_symbol_data`), the sentiment CSV read inside `get_sentiment_score`, the
recent-text read of `_recent_texts_for_symbol`, and the fundamentals
fetchers (`fetch_overview` / `fetch_earnings` with `recent_earnings_date`,
whose result is reduced here to the sector and the number of days between
"now" and the last earnings date — the spec's "now" is an input).  `sdOf`
is the rolling-std oracle for the base scorer, `search` the regex engine,
and `taOf` / `volOf` produce the `generate_ta_triggers` /
`detect_volume_spikes` frames, whose numeric content comes from TA-Lib /
rolling medians. -/
structure Collab where
  fetchPrice : String → Except String PriceFrame
  fetchSentiment : String → Except String ℚ
  fetchTexts : String → Except String (List String)
  fetchSector : String → Except String (Option String)
  fetchEarningsDays : String → Except String (Option Int)
  sdOf : List ℚ → ℚ
  search : String → String → Bool
  taOf : PriceFrame → ColFrame
  volOf : PriceFrame → ColFrame

/-- `get_symbol_data`: every fetch failure is caught and becomes the empty
frame (`src/main.py` lines 109-151). -/
def get_symbol_data (c : Collab) (sym : String) : PriceFrame :=
  match c.fetchPrice sym with
  | Except.ok df => df
  | Except.error _ => []

/-- The caught read of `get_sentiment_score`: `0.0` on any exception. -/
def sentiment_of (c : Collab) (sym : String) : ℚ :=
  match c.fetchSentiment sym with
  | Except.ok x => x
  | Except.error _ => 0

/-- `_recent_texts_for_symbol`: `[]` on a missing file or any exception. -/
def texts_of (c : Collab) (sym : String) : List String :=
  match c.fetchTexts sym with
  | Except.ok t => t
  | Except.error _ => []

/-- `fundamentals_meta`: `fetch_overview` / `fetch_earnings` catch their own
exceptions and return `{}`, so a failure yields an absent sector / earnings
date. -/
def fundamentals_meta (c : Collab) (sym : String) : Option String × Option Int :=
  (match c.fetchSector sym with
   | Except.ok s => s
   | Except.error _ => none,
   match c.fetchEarningsDays sym with
   | Except.ok e => e
   | Except.error _ => none)

/-- The earnings-window decision of `momentum_smallcap_signals` (lines
309-317): blocked iff a last earnings date exists, the configured window is
positive and the date lies at most `earnings_window_days` days back; any
exception in the `try` yields `False` (absorbed into `none`). -/
def earn_block (cfg : Config) (daysSince : Option Int) : Bool :=
  match daysSince with
  | some d => decide (0 < cfg.earnings_window_days) && decide (d ≤ cfg.earnings_window_days)
  | none => false

/-- One emitted signal row (the flattened `CombinedSignal` of the spec).
`strength` / `enhanced_strength` / `confidence` are `Option` because the base
score can be `NaN` before the final `out.fillna(0)`; `filters` is
`meta['filters']`. -/
structure Row where
  symbol : String
  strength : Option ℚ
  action : String
  enhanced_strength : Option ℚ
  enhanced_action : String
  confidence : Option ℚ
  entry_price : ℚ
  risk_plan : List (String × ℚ)
  position_size : ℚ
  atr : ℚ
  filters : List String
deriving DecidableEq, Repr

/-- The loop body of `momentum_smallcap_signals` (`src/main.py` lines
301-365) for one symbol. -/
def process_symbol (c : Collab) (cfg : Config) (sym : String) : Row :=
  let dfp := get_symbol_data c sym
  let sent := sentiment_of c sym
  let texts := texts_of c sym
  let meta := fundamentals_meta c sym
  let eb := earn_block cfg meta.2
  let has_recent_bio_cat := ! eb
  let base := score_smallcap_momentum dfp sent texts c.search (c.sdOf dfp.volumes)
  let fr := apply_filters cfg dfp meta.1 has_recent_bio_cat
  let filters := fr.2 ++ (if eb then ["earnings_window"] else [])
  let ok := fr.1 && ! eb
  let entry := if dfp.isEmpty then 0 else lastD dfp.closes
  if ! ok then
    { symbol := sym, strength := base, action := "HOLD",
      enhanced_strength := some 0, enhanced_action := "HOLD",
      confidence := some 0, entry_price := entry, risk_plan := [],
      position_size := 0, atr := 0, filters := filters }
  else
    let ta := if dfp.isEmpty then [] else c.taOf dfp
    let vol := if dfp.isEmpty then [] else c.volOf dfp
    let comb := calculate_combined_signal_score base ta vol sent
    let plan := if 0 < entry then
        trade_plan entry cfg.stop_loss_pct cfg.take_profit_pct cfg.trail_pct
      else []
    let atr_val := atr dfp
    let size := position_size cfg.account_equity cfg.risk_pct cfg.atr_k atr_val
    let action :=
      match base with
      | some b => if b > 1/2 then "BUY" else if b < -(1/2) then "SELL" else "HOLD"
      | none => "HOLD"
    { symbol := sym, strength := base, action := action,
      enhanced_strength := comb.total_score, enhanced_action := comb.action,
      confidence := comb.confidence, entry_price := entry, risk_plan := plan,
      position_size := size, atr := atr_val, filters := filters }

/-- The final `out.fillna(0)` of the pipeline: `NaN` numeric cells become `0`
(`risk_plan`/`meta` are dicts and untouched). -/
def fillRow (r : Row) : Row :=
  { r with strength := some (r.strength.getD 0),
           enhanced_strength := some (r.enhanced_strength.getD 0),
           confidence := some (r.confidence.getD 0) }

/-- `momentum_smallcap_signals`: one row per requested symbol, in order,
then `fillna(0)` (the snapshot/archive writes are I/O and return the frame
unchanged). -/
def momentum_smallcap_signals (c : Collab) (cfg : Config) (symbols : List String) :
    List Row :=
  symbols.map (fun sym => fillRow (process_symbol c cfg sym))

/-!
## Concrete fixtures for witnesses and counterexamples
-/

/-- A concrete regex engine: matches exactly the FDA pattern against the
exact text "FDA". -/
def searchW : String → String → Bool := fun p t => p = "\\bFDA\\b" && t = "FDA"

/-- A sub-dollar bar (close 0.5) with constant volume. -/
def barA : Bar := { opn := 1, high := 1, low := 1, close := 1/2, volume := 1000 }

/-- A five-bar penny-stock frame. -/
def dfPenny : PriceFrame := [barA, barA, barA, barA, barA]

/-- The default configuration of `_load_config` (`src/main.py` lines 69-79),
with `price_min` resolved from `min_price = 1.5`. -/
def cfgW : Config :=
  { price_min := 3/2, min_10d_dollar_volume := 2000000, min_avg_volume := none,
    sector_exclude := [], sectors_biotech := ["Biotechnology", "Biotech", "Health Care", "Healthcare"],
    earnings_window_days := 2, stop_loss_pct := 8/100, take_profit_pct := 1/5,
    trail_pct := 8/100, risk_pct := 1/200, atr_k := 3/2, account_equity := 10000 }

/-- A collaborator family whose calls all succeed with simple data. -/
def collabW : Collab :=
  { fetchPrice := fun _ => Except.ok dfPenny,
    fetchSentiment := fun _ => Except.ok 0,
    fetchTexts := fun _ => Except.ok [],
    fetchSector := fun _ => Except.ok none,
    fetchEarningsDays := fun _ => Except.ok none,
    sdOf := fun _ => 0,
    search := searchW,
    taOf := fun _ => [],
    volOf := fun _ => [] }

/-- A collaborator family whose price fetch raises for the symbol "BAD". -/
def collabErrW : Collab :=
  { collabW with fetchPrice := fun s => if s = "BAD" then Except.error "boom" else Except.ok dfPenny }

/-- A collaborator family reporting a last earnings date one day ago
(inside the default two-day blackout window). -/
def collabEarnW : Collab :=
  { collabW with fetchEarningsDays := fun _ => Except.ok (some 1) }

/-!
## Helper lemmas
-/

theorem clip_mem (lo hi x : ℚ) (h : lo ≤ hi) : lo ≤ clip lo hi x ∧ clip lo hi x ≤ hi := by
  unfold clip
  exact ⟨le_max_left _ _, max_le h (min_le_left _ _)⟩

theorem mem_addCol {x n : String} {cols : List String} (h : x ∈ addCol cols n) :
    x ∈ cols ∨ x = n := by
  unfold addCol at h
  split at h
  · exact Or.inl h
  · rcases List.mem_append.mp h with h1 | h1
    · exact Or.inl h1
    · exact Or.inr (List.mem_singleton.mp h1)

theorem mem_foldl_addCol {x : String} :
    ∀ (names cols : List String), x ∈ names.foldl addCol cols → x ∈ cols ∨ x ∈ names
  | [], _, h => Or.inl h
  | n :: ns, cols, h => by
    rcases mem_foldl_addCol ns (addCol cols n) h with h1 | h1
    · rcases mem_addCol h1 with h2 | h2
      · exact Or.inl h2
      · exact Or.inr (by simp [h2])
    · exact Or.inr (List.mem_cons_of_mem _ h1)

theorem listMean_const {c : ℚ} {xs : List ℚ} (hne : xs ≠ []) (h : ∀ x ∈ xs, x = c) :
    listMean xs = c := by
  unfold listMean
  rw [List.sum_eq_card_nsmul xs c h, nsmul_eq_mul]
  have hlen : (xs.length : ℚ) ≠ 0 := by
    have hpos := List.length_pos.mpr hne
    exact Nat.cast_ne_zero.mpr (Nat.pos_iff_ne_zero.mp hpos)
  field_simp

theorem lastD_mem_lastWindow {xs : List ℚ} (hne : xs ≠ []) {w : Nat} (hw : 1 ≤ w) :
    lastD xs ∈ lastWindow w xs := by
  unfold lastD lastWindow
  have hlt : xs.length - w < xs.length := by
    have := List.length_pos.mpr hne
    omega
  have hdrop : (xs.drop (xs.length - w)).getLast? = xs.getLast? := by
    rw [List.getLast?_drop, if_neg (by omega)]
  have hne2 : xs.drop (xs.length - w) ≠ [] := by
    intro hcontra
    have := congrArg List.length hcontra
    simp [List.length_drop] at this
    omega
  rw [List.getLast?_eq_getLast _ hne, Option.getD_some]
  have hmm := List.getLast_mem_getLast? hne2
  rw [hdrop, List.getLast?_eq_getLast _ hne, Option.mem_def, Option.some_inj] at hmm
  rw [hmm]
  exact List.getLast_mem hne2

theorem length_lastWindow (w : Nat) (xs : List ℚ) :
    (lastWindow w xs).length = min w xs.length := by
  unfold lastWindow
  rw [List.length_drop]
  omega

/-!
## Claim theorems
-/

/-- Claim C7 (confirmed): for every `account_equity`, risk percentage, `atr_k`
and ATR value, if `ATR <= 0` the computed position size is exactly `0`, and
otherwise (with the configured positive multiplier making the divisor nonzero)
it equals `(account_equity * risk) / (atr * k)`; the divisor `atr * k` is
nonzero whenever the division branch runs. -/
theorem position_size_atr_guard (e risk k a : ℚ) :
    (a ≤ 0 → position_size e risk k a = 0) ∧
    (0 < a → k ≠ 0 → a * k ≠ 0 ∧ position_size e risk k a = (e * risk) / (a * k)) := by
  constructor
  · intro h
    rw [position_size, if_pos h]
  · intro h hk
    refine ⟨mul_ne_zero (ne_of_gt h) hk, ?_⟩
    rw [position_size, if_neg (not_le.mpr h)]

/-- Witness for C7 at the default configuration (equity 10000, risk 0.005,
`atr_k = 1.5`): ATR 0 sizes to 0, ATR 2 sizes to the risk quotient. -/
theorem position_size_atr_guard_w :
    position_size 10000 (1/200) (3/2) 0 = 0 ∧
    position_size 10000 (1/200) (3/2) 2 = (10000 * (1/200)) / (2 * (3/2)) :=
  ⟨(position_size_atr_guard 10000 (1/200) (3/2) 0).1 (by norm_num),
   ((position_size_atr_guard 10000 (1/200) (3/2) 2).2 (by norm_num) (by norm_num)).2⟩

/-- Counterexample to claim C8 as stated: the claim puts −0.2 and 0.2 in a
closed neutral band mapping to signal 0 and 0.5 in the −1 band, but the code
returns +1 at exactly −0.2, −1 at exactly +0.2 and −2 at exactly +0.5. -/
theorem premium_signal_boundaries_cex :
    generate_premium_signal (-(1/5)) = 1 ∧ generate_premium_signal (1/5) = -1 ∧
    generate_premium_signal (1/2) = -2 ∧ ((1 : Int) ≠ 0 ∧ (-1 : Int) ≠ 0) := by
  refine ⟨?_, ?_, ?_, by norm_num⟩ <;> norm_num [generate_premium_signal]

/-- Claim C8 (amended): the premium/discount signal is +2 when the tracking
difference is ≤ −0.5 percentage points, +1 on (−0.5, −0.2], −2 when ≥ 0.5,
−1 on [0.2, 0.5), and 0 on the open neutral band (−0.2, 0.2); in particular
a tracking difference of exactly 0 maps to signal 0, while the −0.2 / 0.2 /
0.5 boundaries fall in the non-neutral bands. -/
theorem premium_signal_bands (p : ℚ) :
    (p ≤ -(1/2) → generate_premium_signal p = 2) ∧
    (-(1/2) < p → p ≤ -(1/5) → generate_premium_signal p = 1) ∧
    (1/2 ≤ p → generate_premium_signal p = -2) ∧
    (1/5 ≤ p → p < 1/2 → generate_premium_signal p = -1) ∧
    (-(1/5) < p → p < 1/5 → generate_premium_signal p = 0) ∧
    generate_premium_signal 0 = 0 := by
  refine ⟨?_, ?_, ?_, ?_, ?_, by norm_num [generate_premium_signal]⟩
  · intro h1
    rw [generate_premium_signal, if_pos h1]
  · intro h1 h2
    rw [generate_premium_signal, if_neg (by linarith), if_pos h2]
  · intro h1
    rw [generate_premium_signal, if_neg (by linarith), if_neg (by linarith),
      if_pos (by linarith)]
  · intro h1 h2
    rw [generate_premium_signal, if_neg (by linarith), if_neg (by linarith),
      if_neg (not_le.mpr h2), if_pos (by linarith)]
  · intro h1 h2
    rw [generate_premium_signal, if_neg (by linarith), if_neg (by linarith),
      if_neg (not_le.mpr (by linarith)), if_neg (not_le.mpr h2)]

/-- Witness for C8 at concrete tracking differences −0.3 (buy band) and
0.3 (sell band). -/
theorem premium_signal_bands_w :
    generate_premium_signal (-(3/10)) = 1 ∧ generate_premium_signal (3/10) = -1 :=
  ⟨(premium_signal_bands (-(3/10))).2.1 (by norm_num) (by norm_num),
   (premium_signal_bands (3/10)).2.2.2.1 (by norm_num) (by norm_num)⟩

/-- Claim C10 (confirmed): `catalyst_score` is `0` on the empty list, always
lies in `[0, 1]`, equals the fraction of texts matching at least one
positive-catalyst pattern (each text counted at most once, via the regex
engine `search`, which matches no pattern against the empty string), and at a
fixed total count is monotone non-decreasing in the number of matching
texts. -/
theorem catalyst_score_spec (search : String → String → Bool) :
    catalyst_score search [] = 0 ∧
    (∀ texts : List String,
      0 ≤ catalyst_score search texts ∧ catalyst_score search texts ≤ 1) ∧
    (∀ texts : List String, texts ≠ [] → (∀ p, search p "" = false) →
      catalyst_score search texts =
        ((texts.countP (fun t => POSITIVE_PATTERNS.any (fun p => search p t)) : ℕ) : ℚ) /
          ((texts.length : ℕ) : ℚ)) ∧
    (∀ xs ys : List String, xs.length = ys.length →
      xs.countP (fun t => POSITIVE_PATTERNS.any (fun p => search p t)) ≤
        ys.countP (fun t => POSITIVE_PATTERNS.any (fun p => search p t)) →
      (∀ p, search p "" = false) →
      catalyst_score search xs ≤ catalyst_score search ys) := by
  have hEq : ∀ (h0 : ∀ p, search p "" = false) (t : String),
      catalystHit search t = POSITIVE_PATTERNS.any (fun p => search p t) := by
    intro h0 t
    by_cases ht : t = ""
    · subst ht
      simp [catalystHit, POSITIVE_PATTERNS, h0]
    · simp [catalystHit, ht]
  have key : ∀ texts : List String, texts ≠ [] → (∀ p, search p "" = false) →
      catalyst_score search texts =
        ((texts.countP (fun t => POSITIVE_PATTERNS.any (fun p => search p t)) : ℕ) : ℚ) /
          ((texts.length : ℕ) : ℚ) := by
    intro texts hne h0
    have hlenpos : 0 < ((texts.length : ℕ) : ℚ) := by
      have := List.length_pos.mpr hne
      exact_mod_cast this
    have hcount : (texts.filter (catalystHit search)).length =
        texts.countP (fun t => POSITIVE_PATTERNS.any (fun p => search p t)) := by
      rw [← List.countP_eq_length_filter]
      congr 1
      funext t
      exact hEq h0 t
    have hq0 : 0 ≤ ((texts.countP (fun t => POSITIVE_PATTERNS.any (fun p => search p t)) : ℕ) : ℚ) /
        ((texts.length : ℕ) : ℚ) := by positivity
    have hq1 : ((texts.countP (fun t => POSITIVE_PATTERNS.any (fun p => search p t)) : ℕ) : ℚ) /
        ((texts.length : ℕ) : ℚ) ≤ 1 := by
      rw [div_le_one hlenpos]
      exact_mod_cast List.countP_le_length _
    simp only [catalyst_score]
    rw [if_neg (by simp [List.isEmpty_iff, hne]), hcount]
    rw [max_eq_left hq0, min_eq_left hq1]
  refine ⟨rfl, ?_, key, ?_⟩
  · intro texts
    by_cases hne : texts = []
    · subst hne
      norm_num [catalyst_score]
    · constructor
      · simp only [catalyst_score]
        rw [if_neg (by simp [List.isEmpty_iff, hne])]
        exact le_min (le_max_right _ _) zero_le_one
      · simp only [catalyst_score]
        rw [if_neg (by simp [List.isEmpty_iff, hne])]
        exact min_le_right _ _
  · intro xs ys hlen hcnt h0
    by_cases hxe : xs = []
    · subst hxe
      have hye : ys = [] := by
        have h0len : ys.length = 0 := by simpa using hlen.symm
        exact List.length_eq_zero.mp h0len
      subst hye
      exact le_refl _
    · have hyne : ys ≠ [] := by
        intro hcon
        subst hcon
        simp at hlen
        exact hxe hlen
      rw [key xs hxe h0, key ys hyne h0, ← hlen]
      have hpos : 0 < ((xs.length : ℕ) : ℚ) := by
        have := List.length_pos.mpr hxe
        exact_mod_cast this
      exact (div_le_div_iff_of_pos_right hpos).mpr (by exact_mod_cast hcnt)

/-- Witness for C10: with the concrete FDA-only regex engine, one matching
text out of two scores one half. -/
theorem catalyst_score_spec_w :
    catalyst_score searchW ["FDA", "no news"] =
      (((["FDA", "no news"].countP
          (fun t => POSITIVE_PATTERNS.any (fun p => searchW p t)) : ℕ) : ℚ)) /
        (((["FDA", "no news"].length : ℕ) : ℚ)) :=
  (catalyst_score_spec searchW).2.2.1 ["FDA", "no news"] (by decide)
    (by intro p; simp [searchW])

/-- Counterexample to claim C5 as stated: the claim expects STRONG_BUY at
`enhanced_strength >= 0.6` (inclusive), but `calculate_combined_signal_score`
has no STRONG tier at all: a total of 0.7 maps to "BUY" and a total of exactly
0.6 maps to "HOLD" (the `> 0.6` comparison is strict). -/
theorem combined_action_cex :
    (calculate_combined_signal_score (some 2) [] [] 0).total_score = some (7/10) ∧
    ((7/10 : ℚ) ≥ 3/5) ∧
    (calculate_combined_signal_score (some 2) [] [] 0).action = "BUY" ∧
    ("BUY" ≠ "STRONG_BUY") ∧
    (calculate_combined_signal_score (some (12/7)) [] [] 0).total_score = some (3/5) ∧
    (calculate_combined_signal_score (some (12/7)) [] [] 0).action = "HOLD" := by
  refine ⟨?_, by norm_num, ?_, by decide, ?_, ?_⟩ <;>
    norm_num [calculate_combined_signal_score, ColFrame.isEmpty, ColFrame.columns]

/-- Claim C5 (amended): the combined-signal action mapping has no STRONG
tier and uses strict boundaries: the action is "BUY" when the total score is
strictly above 0.6, "SELL" when strictly below −0.6, and "HOLD" otherwise
(including at the ±0.6 boundaries and for a NaN total). -/
theorem combined_action_bands (base : Option ℚ) (ta vol : ColFrame) (sent : ℚ) :
    ((calculate_combined_signal_score base ta vol sent).total_score = none →
      (calculate_combined_signal_score base ta vol sent).action = "HOLD") ∧
    (∀ t, (calculate_combined_signal_score base ta vol sent).total_score = some t →
      ((3/5 < t → (calculate_combined_signal_score base ta vol sent).action = "BUY") ∧
       (t < -(3/5) → (calculate_combined_signal_score base ta vol sent).action = "SELL") ∧
       (-(3/5) ≤ t → t ≤ 3/5 →
         (calculate_combined_signal_score base ta vol sent).action = "HOLD"))) := by
  have ha : (calculate_combined_signal_score base ta vol sent).action =
      (match (calculate_combined_signal_score base ta vol sent).total_score with
       | some t => if t > 3/5 then "BUY" else if t < -(3/5) then "SELL" else "HOLD"
       | none => "HOLD") := rfl
  constructor
  · intro hnone
    rw [ha, hnone]
  · intro t ht
    rw [ha, ht]
    refine ⟨?_, ?_, ?_⟩
    · intro h1
      simp only [if_pos h1]
    · intro h1
      simp only [if_neg (not_lt.mpr (by linarith : t ≤ 3/5)), if_pos h1]
    · intro h1 h2
      simp only [if_neg (not_lt.mpr h2), if_neg (not_lt.mpr h1)]

/-- Witness for C5 at a concrete total of 0.5 (below the strict 0.6 cut):
action "HOLD". -/
theorem combined_action_bands_w :
    (calculate_combined_signal_score (some 1) [] [] 1).action = "HOLD" :=
  ((combined_action_bands (some 1) [] [] 1).2 (1/2)
      (by norm_num [calculate_combined_signal_score, ColFrame.isEmpty, ColFrame.columns])).2.2
    (by norm_num) (by norm_num)

/-- Counterexample to claim C2 as stated: the leaf generators carry every
input column through, so an input frame that already holds a
`signal_strength` / `volume_strength` column yields an output frame that
still holds it — the produced frames do not avoid those columns for *every*
input. -/
theorem leaf_schema_cex :
    "signal_strength" ∈ ta_triggers_cols
      ["symbol", "timestamp", "open", "high", "low", "close", "volume", "signal_strength"] ∧
    "volume_strength" ∈ volume_spikes_cols
      ["symbol", "timestamp", "volume", "volume_strength"] := by
  decide

/-- Claim C2 (amended): `generate_ta_triggers` and `detect_volume_spikes`
never *add* a `signal_strength` or `volume_strength` column (their outputs
hold one only if the input already did); the pipeline's price frames carry
exactly the standard OHLCV columns, whose TA/volume outputs therefore lack
both names, so `calculate_combined_signal_score` always computes
`technical_score = 0`, `volume_score = 0`, and a total of
`0.35 * base + 0.15 * sentiment`. -/
theorem combiner_ignores_leaf_frames (cols : List String) (base : Option ℚ)
    (ta vol : ColFrame) (sent : ℚ) :
    ("signal_strength" ∉ cols → "signal_strength" ∉ ta_triggers_cols cols) ∧
    ("volume_strength" ∉ cols → "volume_strength" ∉ volume_spikes_cols cols) ∧
    "signal_strength" ∉ ta_triggers_cols standardCols ∧
    "volume_strength" ∉ volume_spikes_cols standardCols ∧
    ("signal_strength" ∉ ta.columns → "volume_strength" ∉ vol.columns →
      (calculate_combined_signal_score base ta vol sent).technical_score = 0 ∧
      (calculate_combined_signal_score base ta vol sent).volume_score = 0 ∧
      (calculate_combined_signal_score base ta vol sent).total_score =
        base.map (fun b => b * (35/100) + sent * (15/100))) := by
  refine ⟨?_, ?_, by decide, by decide, ?_⟩
  · intro hno hmem
    simp only [ta_triggers_cols] at hmem
    have h1 := (List.mem_filter.mp hmem).1
    rcases mem_foldl_addCol _ _ h1 with h2 | h2
    · rcases mem_addCol h2 with h3 | h3
      · exact hno h3
      · exact absurd h3 (by decide)
    · exact absurd h2 (by decide)
  · intro hno hmem
    simp only [volume_spikes_cols] at hmem
    rcases mem_addCol hmem with h2 | h2
    · rcases mem_addCol h2 with h3 | h3
      · rcases mem_addCol h3 with h4 | h4
        · exact hno h4
        · exact absurd h4 (by decide)
      · exact absurd h3 (by decide)
    · exact absurd h2 (by decide)
  · intro hta hvol
    have htech : (calculate_combined_signal_score base ta vol sent).technical_score =
        (if ¬ ta.isEmpty ∧ "signal_strength" ∈ ta.columns
         then listMean (ta.col "signal_strength") else 0) := rfl
    have hvolS : (calculate_combined_signal_score base ta vol sent).volume_score =
        (if ¬ vol.isEmpty ∧ "volume_strength" ∈ vol.columns
         then listMean (vol.col "volume_strength") else 0) := rfl
    have h1 : (calculate_combined_signal_score base ta vol sent).technical_score = 0 := by
      rw [htech, if_neg (fun hc => hta hc.2)]
    have h2 : (calculate_combined_signal_score base ta vol sent).volume_score = 0 := by
      rw [hvolS, if_neg (fun hc => hvol hc.2)]
    refine ⟨h1, h2, ?_⟩
    have htot : (calculate_combined_signal_score base ta vol sent).total_score =
        base.map (fun b =>
          b * (35/100) + (calculate_combined_signal_score base ta vol sent).technical_score * (3/10) +
            (calculate_combined_signal_score base ta vol sent).volume_score * (1/5) +
            sent * (15/100)) := rfl
    rw [htot, h1, h2]
    cases base with
    | none => rfl
    | some b =>
      simp only [Option.map_some']
      congr 1
      ring

/-- Witness for C2: a TA frame whose only column is `rsi` and a volume frame
whose only column is `spike` leave the technical and volume components at
zero. -/
theorem combiner_ignores_leaf_frames_w :
    (calculate_combined_signal_score (some 1) [("rsi", [50])] [("spike", [1])] (1/2)).technical_score = 0 ∧
    (calculate_combined_signal_score (some 1) [("rsi", [50])] [("spike", [1])] (1/2)).volume_score = 0 :=
  ⟨((combiner_ignores_leaf_frames ["close"] (some 1) [("rsi", [50])] [("spike", [1])] (1/2)).2.2.2.2
      (by decide) (by decide)).1,
   ((combiner_ignores_leaf_frames ["close"] (some 1) [("rsi", [50])] [("spike", [1])] (1/2)).2.2.2.2
      (by decide) (by decide)).2.1⟩

/-- Counterexample to claim C9 as stated: on a tabular input lacking the
required `text` column, `score_sentiment` raises `ValueError` — it does not
return an empty/neutral result. -/
theorem sentiment_missing_column_cex :
    score_sentiment (fun _ => 0) [("symbol", ["AAPL"])] =
      Except.error "Input DataFrame must contain a 'text' column" := by
  rfl

/-- Claim C9 (amended): `score_sentiment` raises `ValueError` on any frame
without a `text` column (rather than returning a neutral result); the
pipeline caller `get_sentiment_score` guards/catches and returns the neutral
`0.0` for such inputs (and for a missing/unreadable file), and empty or
whitespace-only text always scores `0.0` and never errors. -/
theorem sentiment_error_and_neutral (valence : String → ℚ) :
    (∀ df : TextFrame, df.findCol "text" = none →
      score_sentiment valence df =
        Except.error "Input DataFrame must contain a 'text' column") ∧
    (∀ s : String, tokens s = [] → vaderCompound valence s = 0) ∧
    (∀ (csv : CsvData) (sym : String), csv.hasText = false →
      get_sentiment_score valence (some csv) sym = 0) ∧
    get_sentiment_score valence none "ANY" = 0 := by
  refine ⟨?_, ?_, ?_, rfl⟩
  · intro df h
    unfold score_sentiment
    rw [h]
  · intro s h
    simp [vaderCompound, h]
  · intro csv sym h
    simp [get_sentiment_score, h]

/-- Witness for C9: a concrete frame without a `text` column errors, and a
whitespace-only text scores 0 under a concrete all-ones valence. -/
theorem sentiment_error_and_neutral_w :
    score_sentiment (fun _ => 1) [("symbol", ["AAPL"])] =
        Except.error "Input DataFrame must contain a 'text' column" ∧
    vaderCompound (fun _ => 1) "   " = 0 :=
  ⟨(sentiment_error_and_neutral (fun _ => 1)).1 [("symbol", ["AAPL"])] rfl,
   (sentiment_error_and_neutral (fun _ => 1)).2.1 "   " (by decide)⟩

/-- Counterexample to claim C6 as stated: on a non-empty volume series
shorter than the minimum period (a single bar), the rolling z-score is `NaN`
and the `NaN` propagates into the returned base score
(`score_smallcap_momentum` returns `NaN`, modelled `none`) — the volume
component is not the claimed neutral `0.0`. -/
theorem smallcap_short_series_cex :
    score_smallcap_momentum [barA] 0 [] searchW 0 = none ∧
    v_z_last (PriceFrame.volumes [barA]) 0 = none := by
  constructor
  · rfl
  · rfl

/-- Claim C6 (amended): for a volume series with at least the minimum period
(5) of observations, the volume component is the latest z-score over the
rolling(20, 5) window — a zero rolling standard deviation being replaced by 1
— clipped to `[-3, 3]` and divided by 3, hence in `[-1, 1]`, and a zero
rolling standard deviation (constant final window) yields component exactly
0; the base score is then a real number in `[-1, 1]`.  For a non-empty
series shorter than the minimum period, however, the z-score is `NaN` and
the returned base score is `NaN` (zeroed only later by the pipeline's
`fillna(0)`). -/
theorem smallcap_volume_component (df : PriceFrame) (sentiment : ℚ)
    (texts : List String) (search : String → String → Bool) (sd : ℚ) :
    (5 ≤ df.length →
      (v_z_last df.volumes sd =
        some (clip (-3) 3 ((lastD df.volumes - listMean (lastWindow 20 df.volumes)) /
          (if sd = 0 then 1 else sd)))) ∧
      (∀ z, v_z_last df.volumes sd = some z → -1 ≤ z / 3 ∧ z / 3 ≤ 1) ∧
      ((∀ x ∈ lastWindow 20 df.volumes, ∀ y ∈ lastWindow 20 df.volumes, x = y) →
        sd = 0 → v_z_last df.volumes sd = some 0) ∧
      (∃ r, score_smallcap_momentum df sentiment texts search sd = some r ∧
        -1 ≤ r ∧ r ≤ 1)) ∧
    (df ≠ [] → df.length < 5 →
      score_smallcap_momentum df sentiment texts search sd = none) := by
  have hvol_len : df.volumes.length = df.length := List.length_map _ _
  constructor
  · intro h5
    have hwin : 5 ≤ (lastWindow 20 df.volumes).length := by
      rw [length_lastWindow, hvol_len]
      omega
    have hmean : rollingLastMean 20 5 df.volumes =
        some (listMean (lastWindow 20 df.volumes)) := by
      unfold rollingLastMean
      rw [if_pos hwin]
    have hvz : v_z_last df.volumes sd =
        some (clip (-3) 3 ((lastD df.volumes - listMean (lastWindow 20 df.volumes)) /
          (if sd = 0 then 1 else sd))) := by
      unfold v_z_last
      rw [hmean]
    refine ⟨hvz, ?_, ?_, ?_⟩
    · intro z hz
      rw [hvz] at hz
      have hz3 := clip_mem (-3) 3 ((lastD df.volumes - listMean (lastWindow 20 df.volumes)) /
          (if sd = 0 then 1 else sd)) (by norm_num)
      have hzv : z = clip (-3) 3 ((lastD df.volumes - listMean (lastWindow 20 df.volumes)) /
          (if sd = 0 then 1 else sd)) := by
        exact (Option.some_inj.mp hz).symm
      constructor
      · rw [hzv]
        linarith [hz3.1]
      · rw [hzv]
        linarith [hz3.2]
    · intro hconst hsd0
      have hne : df.volumes ≠ [] := by
        intro hcon
        rw [hcon] at hvol_len
        simp at hvol_len
        omega
      have hlastmem : lastD df.volumes ∈ lastWindow 20 df.volumes :=
        lastD_mem_lastWindow hne (by norm_num)
      have hwne : lastWindow 20 df.volumes ≠ [] := by
        intro hcon
        rw [hcon] at hwin
        simp at hwin
      have hmeanconst : listMean (lastWindow 20 df.volumes) = lastD df.volumes :=
        listMean_const hwne (fun x hx => hconst x hx (lastD df.volumes) hlastmem)
      rw [hvz, hmeanconst, hsd0]
      norm_num [clip]
    · have hne : ¬ df.isEmpty = true := by
        intro hcon
        have := List.isEmpty_iff.mp hcon
        rw [this] at h5
        simp at h5
      refine ⟨clip (-1) 1 ((45/100) * clip (-1) 1
          ((if 6 ≤ df.length then lastD df.closes / ((df.closes.get? (df.length - 6)).getD 1) - 1 else 0) * 10) +
          (3/10) * (match rollingLastMax 20 5 df.closes with
                    | some h => if h ≤ lastD df.closes then 1 else -(1/5)
                    | none => -(1/5)) +
          (15/100) * (clip (-3) 3 ((lastD df.volumes - listMean (lastWindow 20 df.volumes)) /
            (if sd = 0 then 1 else sd)) / 3) +
          (1/10) * clip (-1) 1 sentiment + (15/100) * catalyst_score search texts), ?_, ?_, ?_⟩
      · unfold score_smallcap_momentum
        rw [if_neg hne]
        simp only [PriceFrame.closes, PriceFrame.volumes] at hvz ⊢
        rw [hvz]
        rfl
      · exact (clip_mem (-1) 1 _ (by norm_num)).1
      · exact (clip_mem (-1) 1 _ (by norm_num)).2
  · intro hne hlt
    have hne2 : ¬ df.isEmpty = true := by
      intro hcon
      exact hne (List.isEmpty_iff.mp hcon)
    have hwin : ¬ 5 ≤ (lastWindow 20 df.volumes).length := by
      rw [length_lastWindow, hvol_len]
      omega
    have hmean : rollingLastMean 20 5 df.volumes = none := by
      unfold rollingLastMean
      rw [if_neg hwin]
    have hvz : v_z_last df.volumes sd = none := by
      unfold v_z_last
      rw [hmean]
    unfold score_smallcap_momentum
    rw [if_neg hne2]
    simp only [PriceFrame.closes, PriceFrame.volumes] at hvz ⊢
    rw [hvz]
    rfl

/-- Witness for C6: the five-bar constant-volume frame has a defined volume
component equal to 0 at sd = 0, and a real bounded base score. -/
theorem smallcap_volume_component_w :
    v_z_last (PriceFrame.volumes dfPenny) 0 = some 0 ∧
    (∃ r, score_smallcap_momentum dfPenny 0 [] searchW 0 = some r ∧ -1 ≤ r ∧ r ≤ 1) :=
  ⟨((smallcap_volume_component dfPenny 0 [] searchW 0).1 (by decide)).2.2.1
      (by decide) rfl,
   ((smallcap_volume_component dfPenny 0 [] searchW 0).1 (by decide)).2.2.2⟩

theorem fillRow_symbol (r : Row) : (fillRow r).symbol = r.symbol := rfl

theorem fillRow_action (r : Row) : (fillRow r).action = r.action := rfl

theorem fillRow_filters (r : Row) : (fillRow r).filters = r.filters := rfl

theorem process_symbol_symbol (c : Collab) (cfg : Config) (sym : String) :
    (process_symbol c cfg sym).symbol = sym := by
  simp only [process_symbol]
  split <;> rfl

theorem process_symbol_strength (c : Collab) (cfg : Config) (sym : String) :
    (process_symbol c cfg sym).strength =
      score_smallcap_momentum (get_symbol_data c sym) (sentiment_of c sym)
        (texts_of c sym) c.search (c.sdOf (PriceFrame.volumes (get_symbol_data c sym))) := by
  simp only [process_symbol]
  split <;> rfl

theorem process_symbol_entry (c : Collab) (cfg : Config) (sym : String) :
    (process_symbol c cfg sym).entry_price =
      (if (get_symbol_data c sym).isEmpty then 0
       else lastD (PriceFrame.closes (get_symbol_data c sym))) := by
  simp only [process_symbol]
  split <;> rfl

theorem process_symbol_filters (c : Collab) (cfg : Config) (sym : String) :
    (process_symbol c cfg sym).filters =
      (apply_filters cfg (get_symbol_data c sym) (fundamentals_meta c sym).1
        (! earn_block cfg (fundamentals_meta c sym).2)).2 ++
      (if earn_block cfg (fundamentals_meta c sym).2 then ["earnings_window"] else []) := by
  simp only [process_symbol]
  split <;> rfl

theorem process_symbol_reject (c : Collab) (cfg : Config) (sym : String)
    (hfr : (apply_filters cfg (get_symbol_data c sym) (fundamentals_meta c sym).1
      (! earn_block cfg (fundamentals_meta c sym).2)).1 = false) :
    (process_symbol c cfg sym).action = "HOLD" ∧
    (process_symbol c cfg sym).enhanced_strength = some 0 ∧
    (process_symbol c cfg sym).confidence = some 0 ∧
    (process_symbol c cfg sym).risk_plan = [] ∧
    (process_symbol c cfg sym).position_size = 0 ∧
    (process_symbol c cfg sym).atr = 0 := by
  simp only [process_symbol, hfr]
  simp

/-- Claim C1 (confirmed): every symbol processed by the momentum small-cap
pipeline whose price frame is non-empty and whose last close is strictly
below the configured minimum price yields an emitted signal row with action
"HOLD", enhanced_strength 0, confidence 0, and "min_price" in the row's
filter list. -/
theorem min_price_gate (c : Collab) (cfg : Config) (symbols : List String) (sym : String)
    (hmem : sym ∈ symbols)
    (hne : get_symbol_data c sym ≠ [])
    (hpx : lastD (PriceFrame.closes (get_symbol_data c sym)) < cfg.price_min) :
    ∃ row ∈ momentum_smallcap_signals c cfg symbols,
      row.symbol = sym ∧ row.action = "HOLD" ∧ row.enhanced_strength = some 0 ∧
      row.confidence = some 0 ∧ "min_price" ∈ row.filters := by
  have hisEmpty : (get_symbol_data c sym).isEmpty = false := by
    cases hgd : get_symbol_data c sym with
    | nil => exact absurd hgd hne
    | cons a l => rfl
  have hfr : apply_filters cfg (get_symbol_data c sym) (fundamentals_meta c sym).1
      (! earn_block cfg (fundamentals_meta c sym).2) = (false, ["min_price"]) := by
    simp only [apply_filters, hisEmpty]
    rw [if_neg (by simp), if_pos hpx]
  obtain ⟨ha, he, hc, _, _, _⟩ := process_symbol_reject c cfg sym (by rw [hfr])
  refine ⟨fillRow (process_symbol c cfg sym), ?_, ?_, ?_, ?_, ?_, ?_⟩
  · simp only [momentum_smallcap_signals]
    exact List.mem_map_of_mem _ hmem
  · rw [fillRow_symbol, process_symbol_symbol]
  · rw [fillRow_action, ha]
  · show some ((process_symbol c cfg sym).enhanced_strength.getD 0) = some 0
    rw [he]
    rfl
  · show some ((process_symbol c cfg sym).confidence.getD 0) = some 0
    rw [hc]
    rfl
  · rw [fillRow_filters, process_symbol_filters, hfr]
    exact List.mem_append_left _ (List.mem_singleton.mpr rfl)

/-- Witness for C1: a five-bar frame closing at 0.5 against the default
minimum price 1.5. -/
theorem min_price_gate_w :
    ∃ row ∈ momentum_smallcap_signals collabW cfgW ["PENNY"],
      row.symbol = "PENNY" ∧ row.action = "HOLD" ∧ row.enhanced_strength = some 0 ∧
      row.confidence = some 0 ∧ "min_price" ∈ row.filters :=
  min_price_gate collabW cfgW ["PENNY"] "PENNY" (by decide) (by decide)
    (by norm_num [get_symbol_data, collabW, dfPenny, barA, cfgW, lastD, PriceFrame.closes])

/-- Claim C3 (confirmed): for every batch of symbols and every family of
collaborators (each of whose calls may raise), the pipeline emits exactly one
row per requested symbol in order — a failure inside one symbol's processing
never prevents the others from being processed — and a symbol whose price
fetch raises yields a fully neutral/zeroed row (the caught exception leaves
an empty frame, which the no-data filter turns into the neutral row). -/
theorem batch_isolation (c : Collab) (cfg : Config) (symbols : List String) :
    (momentum_smallcap_signals c cfg symbols).length = symbols.length ∧
    (∀ i : Nat, ((momentum_smallcap_signals c cfg symbols)[i]?).map Row.symbol =
      symbols[i]?) ∧
    (∀ sym ∈ symbols, ∀ e : String, c.fetchPrice sym = Except.error e →
      ∃ row ∈ momentum_smallcap_signals c cfg symbols,
        row.symbol = sym ∧ row.strength = some 0 ∧ row.action = "HOLD" ∧
        row.enhanced_strength = some 0 ∧ row.confidence = some 0 ∧
        row.entry_price = 0 ∧ row.risk_plan = [] ∧ row.position_size = 0 ∧
        row.atr = 0 ∧ "no_data" ∈ row.filters) := by
  refine ⟨by simp [momentum_smallcap_signals], ?_, ?_⟩
  · intro i
    simp only [momentum_smallcap_signals, List.getElem?_map]
    cases hsy : symbols[i]? with
    | none => rfl
    | some s =>
      simp only [Option.map_some']
      rw [fillRow_symbol, process_symbol_symbol]
  · intro sym hmem e herr
    have hgd : get_symbol_data c sym = [] := by
      unfold get_symbol_data
      rw [herr]
    have hfr : apply_filters cfg (get_symbol_data c sym) (fundamentals_meta c sym).1
        (! earn_block cfg (fundamentals_meta c sym).2) = (false, ["no_data"]) := by
      rw [hgd]
      rfl
    obtain ⟨ha, he, hc, hrp, hps, hatr⟩ := process_symbol_reject c cfg sym (by rw [hfr])
    refine ⟨fillRow (process_symbol c cfg sym), ?_, ?_, ?_, ?_, ?_, ?_, ?_, ?_, ?_, ?_, ?_⟩
    · simp only [momentum_smallcap_signals]
      exact List.mem_map_of_mem _ hmem
    · rw [fillRow_symbol, process_symbol_symbol]
    · show some ((process_symbol c cfg sym).strength.getD 0) = some 0
      rw [process_symbol_strength, hgd]
      rfl
    · rw [fillRow_action, ha]
    · show some ((process_symbol c cfg sym).enhanced_strength.getD 0) = some 0
      rw [he]
      rfl
    · show some ((process_symbol c cfg sym).confidence.getD 0) = some 0
      rw [hc]
      rfl
    · show (process_symbol c cfg sym).entry_price = 0
      rw [process_symbol_entry, hgd]
      rfl
    · show (process_symbol c cfg sym).risk_plan = []
      exact hrp
    · show (process_symbol c cfg sym).position_size = 0
      exact hps
    · show (process_symbol c cfg sym).atr = 0
      exact hatr
    · rw [fillRow_filters, process_symbol_filters, hfr]
      exact List.mem_append_left _ (List.mem_singleton.mpr rfl)

/-- Witness for C3: with a collaborator family whose price fetch raises for
"BAD" only, the (GOOD, BAD) batch still yields two rows and BAD's row is
neutral. -/
theorem batch_isolation_w :
    (momentum_smallcap_signals collabErrW cfgW ["GOOD", "BAD"]).length = 2 ∧
    (∃ row ∈ momentum_smallcap_signals collabErrW cfgW ["GOOD", "BAD"],
      row.symbol = "BAD" ∧ row.strength = some 0 ∧ row.action = "HOLD" ∧
      row.enhanced_strength = some 0 ∧ row.confidence = some 0 ∧
      row.entry_price = 0 ∧ row.risk_plan = [] ∧ row.position_size = 0 ∧
      row.atr = 0 ∧ "no_data" ∈ row.filters) :=
  ⟨(batch_isolation collabErrW cfgW ["GOOD", "BAD"]).1,
   (batch_isolation collabErrW cfgW ["GOOD", "BAD"]).2.2 "BAD" (by decide) "boom" rfl⟩

/-- Counterexample to claim C4 as stated: a concrete frame failing both the
minimum-price and the minimum-dollar-volume guard records only "min_price" —
`_apply_filters` returns at the first failing guard, so "min_dollar_vol" is
not recorded. -/
theorem filters_shortcircuit_cex :
    lastD (PriceFrame.closes dfPenny) < cfgW.price_min ∧
    avg_dollar_volume dfPenny < cfgW.min_10d_dollar_volume ∧
    apply_filters cfgW dfPenny none true = (false, ["min_price"]) ∧
    "min_dollar_vol" ∉ (apply_filters cfgW dfPenny none true).2 := by
  have hpx : lastD (PriceFrame.closes dfPenny) < cfgW.price_min := by
    norm_num [lastD, PriceFrame.closes, dfPenny, barA, cfgW]
  have hadv : avg_dollar_volume dfPenny < cfgW.min_10d_dollar_volume := by
    norm_num [avg_dollar_volume, rollingLastMean, lastWindow, listMean, dfPenny, barA, cfgW,
      List.sum_cons, List.sum_nil]
  have hfil : apply_filters cfgW dfPenny none true = (false, ["min_price"]) := by
    have h1 : dfPenny.isEmpty = false := rfl
    simp only [apply_filters, h1]
    rw [if_neg (by simp), if_pos hpx]
  refine ⟨hpx, hadv, hfil, ?_⟩
  rw [hfil]
  decide

/-- Claim C4 (amended): the filter chain short-circuits at the first failing
guard, so at most one filter name is ever recorded by `_apply_filters`
(the first applicable of no_data, min_price, min_dollar_vol, min_avg_volume,
sector_exclude, biotech_no_catalyst, in that order); independently of all
of those, the pipeline appends "earnings_window" to the emitted row's filter
list whenever the earnings blackout applies. -/
theorem filters_shortcircuit (c : Collab) (cfg : Config) (sym : String)
    (df : PriceFrame) (sector : Option String) (hb : Bool) :
    (apply_filters cfg df sector hb).2.length ≤ 1 ∧
    (fillRow (process_symbol c cfg sym)).filters =
      (apply_filters cfg (get_symbol_data c sym) (fundamentals_meta c sym).1
        (! earn_block cfg (fundamentals_meta c sym).2)).2 ++
      (if earn_block cfg (fundamentals_meta c sym).2 then ["earnings_window"] else []) ∧
    (earn_block cfg (fundamentals_meta c sym).2 = true →
      "earnings_window" ∈ (fillRow (process_symbol c cfg sym)).filters) := by
  refine ⟨?_, ?_, ?_⟩
  · unfold apply_filters
    split_ifs <;> simp
  · rw [fillRow_filters, process_symbol_filters]
  · intro heb
    rw [fillRow_filters, process_symbol_filters, heb]
    simp

/-- Witness for C4: a collaborator family reporting earnings one day ago
makes the blackout fire and "earnings_window" appear in the emitted row. -/
theorem filters_shortcircuit_w :
    "earnings_window" ∈ (fillRow (process_symbol collabEarnW cfgW "X")).filters :=
  (filters_shortcircuit collabEarnW cfgW "X" [] none true).2.2 (by decide)
